import Mathlib

/-!
Shallow embedding of the website analyzer (analyzer.py): the cookie-consent
resolver (handle_cookie_consent), the screenshot orchestrator
(take_screenshots) and the CLI entry point (main), together with theorems
settling the spec claims.

Browser-automation primitives are modelled as trace-emitting operations whose
success or failure is an input (a fault oracle carried by the page model).
Raised exceptions are modelled by an Except value threaded alongside the
trace, so the try/except structure of the source is represented faithfully:
a primitive that throws yields an error value, and each try/except block of
the source corresponds to a match on that value.
-/

/-- Outcome of probing one selector with is_visible: the probe can throw,
report a visible element, or report no visible element. -/
inductive ProbeOutcome
  | throws
  | visible
  | notVisible
deriving DecidableEq

/-- Observable invocations of the browser-automation collaborator, together
with printed diagnostics and filesystem directory creation. The probe and
click events carry the index of the catalog selector involved. -/
inductive Event
  | probe (i : Nat)
  | click (i : Nat)
  | waitTimeout (ms : Nat)
  | addCookies (name value url : String)
  | reload
  | addStyle (css : String)
  | printed (s : String)
  | launch
  | newContext (width height : Nat)
  | newPage
  | goto (url : String) (timeout : Nat)
  | screenshot (path : String)
  | closeContext
  | closeBrowser
  | makedirs (path : String)
deriving DecidableEq

/-- Fault oracle and observable state for one page handle: the page URL, the
outcome of each selector probe, and whether each fallible primitive throws
when invoked. -/
structure PageModel where
  url : String
  probe : Nat → ProbeOutcome
  clickThrows : Nat → Bool
  waitClickThrows : Nat → Bool
  addCookiesThrows : Bool
  reloadThrows : Bool
  waitReloadThrows : Bool
  addStyleThrows : Bool

/-- A Python computation: it extends the trace of events and either returns
a value or raises an exception (modelled as a string). The trace extension
survives a raised exception, as side effects do in the source. -/
abbrev PyM (α : Type) : Type := List Event → Except String α × List Event

/-- Model of button.is_visible(timeout=500) for catalog entry i: emits a
probe event and returns the visibility, or throws, per the oracle. -/
def is_visible (m : PageModel) (i : Nat) : PyM Bool := fun tr =>
  (match m.probe i with
   | .throws => .error "probe"
   | .visible => .ok true
   | .notVisible => .ok false,
   tr ++ [Event.probe i])

/-- Model of button.click() for catalog entry i. -/
def click (m : PageModel) (i : Nat) : PyM Unit := fun tr =>
  (if m.clickThrows i then .error "click" else .ok (), tr ++ [Event.click i])

/-- Model of page.wait_for_timeout(ms); whether this call throws is passed
in from the oracle at each call site. -/
def wait_for_timeout (throws : Bool) (ms : Nat) : PyM Unit := fun tr =>
  (if throws then .error "wait" else .ok (), tr ++ [Event.waitTimeout ms])

/-- Model of page.context.add_cookies with the consent cookie of the source,
scoped to the page URL. -/
def add_cookies (m : PageModel) : PyM Unit := fun tr =>
  (if m.addCookiesThrows then .error "add_cookies" else .ok (),
   tr ++ [Event.addCookies "cookie_consent" "accepted" m.url])

/-- Model of page.reload(). -/
def reload (m : PageModel) : PyM Unit := fun tr =>
  (if m.reloadThrows then .error "reload" else .ok (), tr ++ [Event.reload])

/-- Model of page.add_style_tag(content=...). -/
def add_style_tag (m : PageModel) (content : String) : PyM Unit := fun tr =>
  (if m.addStyleThrows then .error "add_style_tag" else .ok (),
   tr ++ [Event.addStyle content])

/-- Model of print(s) guarded by the verbose flag, as in
if verbose: print(s). Printing never throws. -/
def vprint (verbose : Bool) (s : String) : PyM Unit := fun tr =>
  (.ok (), if verbose then tr ++ [Event.printed s] else tr)

/-- The selector catalog of handle_cookie_consent (accept_selectors in the
source), in its declared order. -/
def accept_selectors : List String :=
  [ "button:has-text(\"Alle akzeptieren\")",
    "button:has-text(\"Alle annehmen\")",
    "button:has-text(\"Accept all\")",
    "button:has-text(\"Accept All\")",
    "button:has-text(\"Akzeptieren\")",
    "a:has-text(\"Alle akzeptieren\")",
    "a:has-text(\"Alle annehmen\")",
    "a:has-text(\"Accept all\")",
    "a:has-text(\"Accept All\")",
    "a:has-text(\"Akzeptieren\")",
    "#cookie-accept",
    ".cookie-accept",
    "[data-cookie-accept]",
    "#accept-all-cookies",
    ".accept-all-cookies",
    "[data-action=\"accept-all\"]",
    "#onetrust-accept-btn-handler",
    ".cc-accept-all",
    "#CybotCookiebotDialogBodyLevelButtonLevelOptinAllowAll" ]

/-- The style-suppression CSS injected by fallback 2 of the source
(hide_css); braces are escaped as character codes. -/
def hide_css : String :=
  String.append
    (String.append
      "#cookie-banner, .cookie-banner, #cookie-consent, .cookie-consent, #cookiebanner, .cookiebanner, #cookie-notice, .cookie-notice, #gdpr-banner, .gdpr-banner, #onetrust-banner-sdk, .onetrust-banner-sdk, #CybotCookiebotDialog, .cc-window, .cookie-modal, #cookie-modal, [class*=\"cookie-consent\"], [class*=\"cookie-banner\"], [id*=\"cookie-consent\"], [id*=\"cookie-banner\"] "
      "\x7b display: none !important; visibility: hidden !important; \x7d")
    ""

/-- The Tier 1 loop of handle_cookie_consent over the remaining catalog
entry indices, carrying the button_found flag. The result is
(didReturn, button_found): didReturn is true when the source executed the
return statement inside the loop. Each iteration is wrapped in a
try/except that continues on any exception, so the loop itself never
raises. -/
def tier1Loop (m : PageModel) (verbose : Bool) :
    List Nat → Bool → PyM (Bool × Bool)
  | [], bf => fun tr => (.ok (false, bf), tr)
  | i :: rest, bf => fun tr =>
    match is_visible m i tr with
    | (.error _, tr1) => tier1Loop m verbose rest bf tr1
    | (.ok false, tr1) => tier1Loop m verbose rest bf tr1
    | (.ok true, tr1) =>
      match click m i tr1 with
      | (.error _, tr2) => tier1Loop m verbose rest bf tr2
      | (.ok _, tr2) =>
        match wait_for_timeout (m.waitClickThrows i) 1000 tr2 with
        | (.error _, tr3) => tier1Loop m verbose rest true tr3
        | (.ok _, tr3) =>
          (.ok (true, true), (vprint verbose "Cookie banner handled" tr3).2)

/-- Fallback 1 of handle_cookie_consent: inject the consent cookie and
reload, inside a try/except whose handler is pass. Returns true when the
source executed the return statement of this block. -/
def tier2 (m : PageModel) (verbose : Bool) : PyM Bool := fun tr =>
  match add_cookies m tr with
  | (.error _, tr1) => (.ok false, tr1)
  | (.ok _, tr1) =>
    match reload m tr1 with
    | (.error _, tr2) => (.ok false, tr2)
    | (.ok _, tr2) =>
      match wait_for_timeout m.waitReloadThrows 1000 tr2 with
      | (.error _, tr3) => (.ok false, tr3)
      | (.ok _, tr3) =>
        (.ok true, (vprint verbose "Cookie consent injected via cookie" tr3).2)

/-- Fallback 2 of handle_cookie_consent: inject the hiding CSS, inside a
try/except whose handler is pass. -/
def tier3 (m : PageModel) (verbose : Bool) : PyM Unit := fun tr =>
  match add_style_tag m hide_css tr with
  | (.error _, tr1) => (.ok (), tr1)
  | (.ok _, tr1) => vprint verbose "Cookie banners hidden via CSS" tr1

/-- The body of the outer try of handle_cookie_consent: the Tier 1 loop,
then (only when no button was found) the cookie-injection fallback, then
the style-suppression fallback when neither earlier block returned. -/
def resolveBody (m : PageModel) (verbose : Bool) : PyM Unit := fun tr =>
  match tier1Loop m verbose (List.range accept_selectors.length) false tr with
  | (.error e, tr1) => (.error e, tr1)
  | (.ok (true, _), tr1) => (.ok (), tr1)
  | (.ok (false, bf), tr1) =>
    if bf then tier3 m verbose tr1
    else
      match tier2 m verbose tr1 with
      | (.error e, tr2) => (.error e, tr2)
      | (.ok true, tr2) => (.ok (), tr2)
      | (.ok false, tr2) => tier3 m verbose tr2

/-- handle_cookie_consent of the source: the body wrapped in the outer
try/except that logs (when verbose) and never re-raises. -/
def handle_cookie_consent (m : PageModel) (verbose : Bool) : PyM Unit :=
  fun tr =>
  match resolveBody m verbose tr with
  | (.ok _, tr1) => (.ok (), tr1)
  | (.error e, tr1) =>
    vprint verbose (String.append "Cookie consent handling failed: " e) tr1

/-- The trace of collaborator invocations performed by one resolver call,
starting from the empty trace. -/
def resolveTrace (m : PageModel) (verbose : Bool) : List Event :=
  (handle_cookie_consent m verbose []).2

/-- Pure denotation of the Tier 1 loop: the emitted events, whether the
loop executed the return statement, and the final button_found flag. -/
structure Tier1Out where
  events : List Event
  didReturn : Bool
  button_found : Bool

/-- Denotation of the Tier 1 loop, by recursion on the remaining entries. -/
def tier1Den (m : PageModel) (verbose : Bool) : List Nat → Bool → Tier1Out
  | [], bf => ⟨[], false, bf⟩
  | i :: rest, bf =>
    match m.probe i with
    | .throws =>
      let o := tier1Den m verbose rest bf
      ⟨Event.probe i :: o.events, o.didReturn, o.button_found⟩
    | .notVisible =>
      let o := tier1Den m verbose rest bf
      ⟨Event.probe i :: o.events, o.didReturn, o.button_found⟩
    | .visible =>
      if m.clickThrows i then
        let o := tier1Den m verbose rest bf
        ⟨Event.probe i :: Event.click i :: o.events, o.didReturn, o.button_found⟩
      else if m.waitClickThrows i then
        let o := tier1Den m verbose rest true
        ⟨Event.probe i :: Event.click i :: Event.waitTimeout 1000 :: o.events,
         o.didReturn, o.button_found⟩
      else
        ⟨[Event.probe i, Event.click i, Event.waitTimeout 1000] ++
           (if verbose then [Event.printed "Cookie banner handled"] else []),
         true, true⟩

/-- Denotation of the cookie-injection fallback: its events and whether it
executed the return statement. -/
def tier2Den (m : PageModel) (verbose : Bool) : List Event × Bool :=
  if m.addCookiesThrows then
    ([Event.addCookies "cookie_consent" "accepted" m.url], false)
  else if m.reloadThrows then
    ([Event.addCookies "cookie_consent" "accepted" m.url, Event.reload], false)
  else if m.waitReloadThrows then
    ([Event.addCookies "cookie_consent" "accepted" m.url, Event.reload,
      Event.waitTimeout 1000], false)
  else
    ([Event.addCookies "cookie_consent" "accepted" m.url, Event.reload,
      Event.waitTimeout 1000] ++
       (if verbose then [Event.printed "Cookie consent injected via cookie"]
        else []),
     true)

/-- Denotation of the style-suppression fallback. -/
def tier3Den (m : PageModel) (verbose : Bool) : List Event :=
  [Event.addStyle hide_css] ++
    (if m.addStyleThrows then []
     else if verbose then [Event.printed "Cookie banners hidden via CSS"]
     else [])

/-- Denotation of one full resolver call on the empty trace. -/
def resolveDen (m : PageModel) (verbose : Bool) : List Event :=
  let o := tier1Den m verbose (List.range accept_selectors.length) false
  if o.didReturn then o.events
  else if o.button_found then o.events ++ tier3Den m verbose
  else if (tier2Den m verbose).2 then o.events ++ (tier2Den m verbose).1
  else o.events ++ (tier2Den m verbose).1 ++ tier3Den m verbose

/-- Whether the Tier 1 loop of the resolver executed its return statement. -/
def tier1Returned (m : PageModel) (verbose : Bool) : Bool :=
  (tier1Den m verbose (List.range accept_selectors.length) false).didReturn

/-- The button_found flag after the Tier 1 loop of the resolver. -/
def buttonFound (m : PageModel) (verbose : Bool) : Bool :=
  (tier1Den m verbose (List.range accept_selectors.length) false).button_found

/-- Whether the cookie-injection fallback runs and executes its return
statement (Tier 1 neither returned nor found a button, and the injection,
reload and settling wait all succeed). -/
def tier2Succeeded (m : PageModel) (verbose : Bool) : Bool :=
  !tier1Returned m verbose && !buttonFound m verbose &&
    !m.addCookiesThrows && !m.reloadThrows && !m.waitReloadThrows

/-- Whether an event is a printed diagnostic. -/
def Event.isPrinted : Event → Bool
  | .printed _ => true
  | _ => false

/-- Whether an event is a style injection. -/
def Event.isStyle : Event → Bool
  | .addStyle _ => true
  | _ => false

/-- Whether an event is a click. -/
def Event.isClick : Event → Bool
  | .click _ => true
  | _ => false

/-- Whether an event is a selector probe. -/
def Event.isProbe : Event → Bool
  | .probe _ => true
  | _ => false

/-- Whether an event is a cookie injection. -/
def Event.isAddCookies : Event → Bool
  | .addCookies _ _ _ => true
  | _ => false

/-- Whether an event is a page reload. -/
def Event.isReload : Event → Bool
  | .reload => true
  | _ => false

/-- Whether an event is a screenshot capture. -/
def Event.isScreenshot : Event → Bool
  | .screenshot _ => true
  | _ => false

/-- Whether an event is a browsing-context teardown. -/
def Event.isCloseContext : Event → Bool
  | .closeContext => true
  | _ => false

/-- Whether an event is a directory creation. -/
def Event.isMakedirs : Event → Bool
  | .makedirs _ => true
  | _ => false

/-- Whether an event is a browser launch. -/
def Event.isLaunch : Event → Bool
  | .launch => true
  | _ => false

/-- Whether an event is an invocation of the consent-resolution code paths:
a selector probe, a click, a cookie injection, a reload or a style
injection. -/
def Event.isConsentOp : Event → Bool
  | .probe _ => true
  | .click _ => true
  | .addCookies _ _ _ => true
  | .reload => true
  | .addStyle _ => true
  | _ => false

/-- The tier an action event belongs to: probes and clicks are Tier 1,
cookie injection and reload are Tier 2, style injection is Tier 3; waits
and diagnostics carry no tier. -/
def Event.tierNum : Event → Option Nat
  | .probe _ => some 1
  | .click _ => some 1
  | .addCookies _ _ _ => some 2
  | .reload => some 2
  | .addStyle _ => some 3
  | _ => none

/-- Whether an event is an operation on one page (or a diagnostic), as
opposed to an orchestrator-level event. -/
def Event.isPageOp : Event → Bool
  | .probe _ => true
  | .click _ => true
  | .waitTimeout _ => true
  | .addCookies _ _ _ => true
  | .reload => true
  | .addStyle _ => true
  | .printed _ => true
  | _ => false

/-- A page model where no catalog selector matches and every browser
primitive succeeds: a page with an unknown consent banner and a healthy
browser. -/
def mAllOk : PageModel :=
  { url := "https://example.com"
    probe := fun _ => ProbeOutcome.notVisible
    clickThrows := fun _ => false
    waitClickThrows := fun _ => false
    addCookiesThrows := false
    reloadThrows := false
    waitReloadThrows := false
    addStyleThrows := false }

/-- Like mAllOk, but the cookie injection throws. -/
def mInjectFail : PageModel := { mAllOk with addCookiesThrows := true }

/-- A page where probing selector 1 throws, selector 3 is visible and
clickable, and every other probe reports no match. -/
def mThirdVisible : PageModel :=
  { mAllOk with
      probe := fun i =>
        if i = 3 then ProbeOutcome.visible
        else if i = 1 then ProbeOutcome.throws
        else ProbeOutcome.notVisible }

/-- Fault oracle for one viewport profile of take_screenshots: the page
model used by the consent resolver on that profile's page, plus whether
navigation, the post-consent settling wait, or the screenshot write
throws. Context creation, page creation and context teardown are modelled
as reliable collaborator calls. -/
structure ProfileModel where
  page : PageModel
  gotoThrows : Bool
  waitStabilizeThrows : Bool
  screenshotThrows : Bool

/-- Fault oracle for one take_screenshots run: whether the browser launch
throws, and the two profile oracles. -/
structure CaptureModel where
  launchThrows : Bool
  desktop : ProfileModel
  mobile : ProfileModel

/-- Model of page.goto(url, timeout=30000). -/
def goto (pm : ProfileModel) (url : String) : PyM Unit := fun tr =>
  (if pm.gotoThrows then .error "goto" else .ok (),
   tr ++ [Event.goto url 30000])

/-- Model of page.screenshot(path=...). -/
def screenshot (pm : ProfileModel) (path : String) : PyM Unit := fun tr =>
  (if pm.screenshotThrows then .error "screenshot" else .ok (),
   tr ++ [Event.screenshot path])

/-- The inner try block of one profile of take_screenshots: navigate, then
(unless skip_cookies) resolve consent and wait for the page to stabilize,
then write the screenshot. -/
def profileTry (pm : ProfileModel) (url path : String)
    (verbose skip_cookies : Bool) : PyM Unit := fun tr =>
  match goto pm url tr with
  | (.error e, tr1) => (.error e, tr1)
  | (.ok _, tr1) =>
    let step2 : Except String Unit × List Event :=
      if skip_cookies then (.ok (), tr1)
      else
        match handle_cookie_consent pm.page verbose tr1 with
        | (.error e, trc) => (.error e, trc)
        | (.ok _, trc) => wait_for_timeout pm.waitStabilizeThrows 2000 trc
    match step2 with
    | (.error e, tr2) => (.error e, tr2)
    | (.ok _, tr2) => screenshot pm path tr2

/-- One viewport profile of take_screenshots: the verbose progress line,
context and page creation, the inner try with its except handler (which
prints the error unconditionally, not gated on verbose), and the finally
that closes the context on every path. -/
def profileBlock (pm : ProfileModel) (url path : String) (w h : Nat)
    (startMsg errPrefix : String) (verbose skip_cookies : Bool) :
    PyM Unit := fun tr =>
  let tr0 := if verbose then tr ++ [Event.printed startMsg] else tr
  let tr1 := tr0 ++ [Event.newContext w h, Event.newPage]
  match profileTry pm url path verbose skip_cookies tr1 with
  | (.error e, tr2) =>
    (.ok (), (tr2 ++ [Event.printed (String.append errPrefix e)]) ++
      [Event.closeContext])
  | (.ok _, tr2) => (.ok (), tr2 ++ [Event.closeContext])

/-- The two profile blocks of take_screenshots in their fixed order, and
the final verbose completion line. -/
def ts_profiles (cm : CaptureModel) (url sdir : String)
    (verbose skip_cookies : Bool) : PyM Unit := fun tr =>
  match profileBlock cm.desktop url (String.append sdir "/desktop.png")
      1920 1080 "Taking desktop screenshot..."
      "Error taking desktop screenshot: " verbose skip_cookies tr with
  | (.error e, tr1) => (.error e, tr1)
  | (.ok _, tr1) =>
    match profileBlock cm.mobile url (String.append sdir "/mobile.png")
        375 667 "Taking mobile screenshot..."
        "Error taking mobile screenshot: " verbose skip_cookies tr1 with
    | (.error e, tr2) => (.error e, tr2)
    | (.ok _, tr2) =>
      (.ok (), if verbose then tr2 ++ [Event.printed "Screenshots completed."]
        else tr2)

/-- The body of the outer try of take_screenshots: the verbose launch line,
the launch attempt whose failure prints an error and returns, the two
profile blocks, and the finally that closes the browser on every path. -/
def ts_body (cm : CaptureModel) (url sdir : String)
    (verbose skip_cookies : Bool) : PyM Unit := fun tr =>
  let tr0 := if verbose then tr ++ [Event.printed "Launching browser..."]
    else tr
  if cm.launchThrows then
    (.ok (), tr0 ++ [Event.printed "Error launching browser: launch"])
  else
    match ts_profiles cm url sdir verbose skip_cookies
        (tr0 ++ [Event.launch]) with
    | (r, tr1) => (r, tr1 ++ [Event.closeBrowser])

/-- take_screenshots of the source: create the screenshots directory, then
run the body inside the outer try whose except prints the error. -/
def take_screenshots (cm : CaptureModel) (url output_dir : String)
    (verbose skip_cookies : Bool) : PyM Unit := fun tr =>
  let sdir := String.append output_dir "/screenshots"
  match ts_body cm url sdir verbose skip_cookies
      (tr ++ [Event.makedirs sdir]) with
  | (.ok _, tr1) => (.ok (), tr1)
  | (.error e, tr1) =>
    (.ok (), tr1 ++
      [Event.printed (String.append "Error during screenshot capture: " e)])

/-- The trace of one take_screenshots run from the empty trace. -/
def tsTrace (cm : CaptureModel) (url output_dir : String)
    (verbose skip_cookies : Bool) : List Event :=
  (take_screenshots cm url output_dir verbose skip_cookies []).2

/-- Denotation of the inner try block of one profile. -/
def profileTryDen (pm : ProfileModel) (url path : String)
    (verbose skip_cookies : Bool) : Except String Unit × List Event :=
  if pm.gotoThrows then (.error "goto", [Event.goto url 30000])
  else
    let consent : Except String Unit × List Event :=
      if skip_cookies then (.ok (), [])
      else
        if pm.waitStabilizeThrows then
          (.error "wait",
           resolveDen pm.page verbose ++ [Event.waitTimeout 2000])
        else
          (.ok (), resolveDen pm.page verbose ++ [Event.waitTimeout 2000])
    match consent with
    | (.error e, es) => (.error e, Event.goto url 30000 :: es)
    | (.ok _, es) =>
      if pm.screenshotThrows then
        (.error "screenshot",
         Event.goto url 30000 :: (es ++ [Event.screenshot path]))
      else
        (.ok (), Event.goto url 30000 :: (es ++ [Event.screenshot path]))

/-- Denotation of one profile block. -/
def profileDen (pm : ProfileModel) (url path : String) (w h : Nat)
    (startMsg errPrefix : String) (verbose skip_cookies : Bool) :
    List Event :=
  (if verbose then [Event.printed startMsg] else []) ++
    [Event.newContext w h, Event.newPage] ++
    ((profileTryDen pm url path verbose skip_cookies).2 ++
      (match (profileTryDen pm url path verbose skip_cookies).1 with
       | .error e => [Event.printed (String.append errPrefix e)]
       | .ok _ => [])) ++
    [Event.closeContext]

/-- Denotation of the two profile blocks plus the completion line. -/
def tsProfilesDen (cm : CaptureModel) (url sdir : String) (v sk : Bool) :
    List Event :=
  profileDen cm.desktop url (String.append sdir "/desktop.png") 1920 1080
      "Taking desktop screenshot..." "Error taking desktop screenshot: "
      v sk ++
    profileDen cm.mobile url (String.append sdir "/mobile.png") 375 667
      "Taking mobile screenshot..." "Error taking mobile screenshot: "
      v sk ++
    (if v then [Event.printed "Screenshots completed."] else [])

/-- Denotation of one full take_screenshots run from the empty trace. -/
def tsDen (cm : CaptureModel) (url odir : String) (v sk : Bool) :
    List Event :=
  Event.makedirs (String.append odir "/screenshots") ::
    ((if v then [Event.printed "Launching browser..."] else []) ++
      (if cm.launchThrows then
        [Event.printed "Error launching browser: launch"]
       else
        Event.launch ::
          (tsProfilesDen cm url (String.append odir "/screenshots") v sk ++
            [Event.closeBrowser])))

/-- The viewport width of a context-creation event, used to state the order
in which the two profiles are attempted. -/
def Event.ctxWidth : Event → Option Nat
  | .newContext w _ => some w
  | _ => none

/-- A profile with the all-ok page model and no profile-level faults. -/
def pAllOk : ProfileModel :=
  { page := mAllOk
    gotoThrows := false
    waitStabilizeThrows := false
    screenshotThrows := false }

/-- A capture model whose desktop navigation fails while everything else,
the mobile profile included, is healthy. -/
def cmDesktopNavFail : CaptureModel :=
  { launchThrows := false
    desktop := { page := mAllOk, gotoThrows := true,
                 waitStabilizeThrows := false, screenshotThrows := false }
    mobile := pAllOk }

/-- A fully healthy capture model. -/
def cmAllOk : CaptureModel :=
  { launchThrows := false, desktop := pAllOk, mobile := pAllOk }

/-- A capture model mixing failure kinds: the desktop navigation fails and
the mobile screenshot write fails, with a successful launch. -/
def cmMixedFail : CaptureModel :=
  { launchThrows := false
    desktop := { page := mAllOk, gotoThrows := true,
                 waitStabilizeThrows := false, screenshotThrows := false }
    mobile := { page := mAllOk, gotoThrows := false,
                waitStabilizeThrows := false, screenshotThrows := true } }

/-- Whether a character may appear after the first character of a URL
scheme, per the urllib parser: letters, digits, plus, minus, dot. -/
def isSchemeTailChar (c : Char) : Bool :=
  c.isAlphanum || c = '+' || c = '-' || c = '.'

/-- A valid scheme prefix: nonempty, starting with a letter, the rest
scheme characters. -/
def validScheme (cs : List Char) : Bool :=
  match cs with
  | [] => false
  | c :: rest => c.isAlpha && rest.all isSchemeTailChar

/-- Split a character list at its first colon: the parts before and after
it, or none when there is no colon. -/
def splitOnColon : List Char → Option (List Char × List Char)
  | [] => none
  | c :: rest =>
    if c = ':' then some ([], rest)
    else
      match splitOnColon rest with
      | none => none
      | some (a, b) => some (c :: a, b)

/-- The scheme and remainder of a URL, per urllib.parse.urlsplit: when the
text before the first colon is a valid scheme, it is the lowercased scheme
and parsing continues after the colon; otherwise the scheme is empty and
the whole input remains. -/
def urlparse_scheme_rest (url : List Char) : List Char × List Char :=
  match splitOnColon url with
  | some (before, after) =>
    if validScheme before then (before.map Char.toLower, after)
    else ([], url)
  | none => ([], url)

/-- The network-location component of the remainder: when it starts with
two slashes, the characters up to the next slash, question mark or hash;
empty otherwise. -/
def netlocOf : List Char → List Char
  | '/' :: '/' :: r => r.takeWhile (fun c => c ≠ '/' && c ≠ '?' && c ≠ '#')
  | _ => []

/-- The scheme component of a URL string. -/
def urlScheme (url : String) : List Char :=
  (urlparse_scheme_rest url.toList).1

/-- The netloc (host) component of a URL string. -/
def urlNetloc (url : String) : List Char :=
  netlocOf (urlparse_scheme_rest url.toList).2

/-- main of the source (named main_entry since Lean reserves main for
executables): validate the URL (scheme and netloc both nonempty),
printing an error and returning on invalid input before any directory is
created; otherwise create the output directory, print the verbose lines,
and run take_screenshots. The timestamp string is an input of the model. -/
def main_entry (cm : CaptureModel) (url output timestamp : String)
    (verbose skip_cookies : Bool) : PyM Unit := fun tr =>
  if urlScheme url = [] ∨ urlNetloc url = [] then
    (.ok (), tr ++ [Event.printed (String.append
      (String.append "Error: Invalid URL \x27" url) "\x27")])
  else
    let domain := String.mk (urlNetloc url)
    let output_dir := String.append (String.append (String.append
      (String.append output "/") domain) "/") timestamp
    let tr1 := tr ++ [Event.makedirs output_dir]
    let tr2 := if verbose then tr1 ++
        [Event.printed (String.append "URL: " url),
         Event.printed (String.append "Output directory: " output_dir)]
      else tr1
    take_screenshots cm url output_dir verbose skip_cookies tr2

theorem tier1Loop_eq (m : PageModel) (v : Bool) :
    ∀ (l : List Nat) (bf : Bool) (tr : List Event),
      tier1Loop m v l bf tr =
        (Except.ok ((tier1Den m v l bf).didReturn,
                    (tier1Den m v l bf).button_found),
         tr ++ (tier1Den m v l bf).events) := by
  intro l
  induction l with
  | nil => intro bf tr; simp [tier1Loop, tier1Den]
  | cons i rest ih =>
    intro bf tr
    simp only [tier1Loop, is_visible, click, wait_for_timeout, vprint]
    cases hp : m.probe i with
    | throws => simp [tier1Den, hp, ih]
    | notVisible => simp [tier1Den, hp, ih]
    | visible =>
      cases hc : m.clickThrows i with
      | true => simp [tier1Den, hp, hc, ih]
      | false =>
        cases hw : m.waitClickThrows i with
        | true => simp [tier1Den, hp, hc, hw, ih]
        | false => cases v <;> simp [tier1Den, hp, hc, hw]

theorem tier2_eq (m : PageModel) (v : Bool) (tr : List Event) :
    tier2 m v tr = (Except.ok (tier2Den m v).2, tr ++ (tier2Den m v).1) := by
  cases ha : m.addCookiesThrows <;> cases hr : m.reloadThrows <;>
    cases hw : m.waitReloadThrows <;> cases v <;>
      simp [tier2, add_cookies, reload, wait_for_timeout, vprint, tier2Den,
        ha, hr, hw]

theorem tier3_eq (m : PageModel) (v : Bool) (tr : List Event) :
    tier3 m v tr = (Except.ok (), tr ++ tier3Den m v) := by
  cases hs : m.addStyleThrows <;> cases v <;>
    simp [tier3, add_style_tag, vprint, tier3Den, hs]

theorem handle_cookie_consent_eq (m : PageModel) (v : Bool) (tr : List Event) :
    handle_cookie_consent m v tr = (Except.ok (), tr ++ resolveDen m v) := by
  simp only [handle_cookie_consent, resolveBody, resolveDen]
  rw [tier1Loop_eq]
  cases hret : (tier1Den m v (List.range accept_selectors.length) false).didReturn
  · cases hbf : (tier1Den m v (List.range accept_selectors.length) false).button_found
    · cases h2 : (tier2Den m v).2 <;> simp [tier2_eq, tier3_eq, h2]
    · simp [tier3_eq]
  · simp

theorem tier1Den_no_visible (m : PageModel) (v : Bool) :
    ∀ (l : List Nat) (bf : Bool), (∀ i ∈ l, m.probe i ≠ .visible) →
      tier1Den m v l bf = ⟨l.map Event.probe, false, bf⟩ := by
  intro l
  induction l with
  | nil => intro bf _; simp [tier1Den]
  | cons i rest ih =>
    intro bf h
    have hi : m.probe i ≠ .visible := h i (List.mem_cons_self i rest)
    have hrest : ∀ j ∈ rest, m.probe j ≠ .visible :=
      fun j hj => h j (List.mem_cons_of_mem i hj)
    cases hp : m.probe i with
    | throws => simp [tier1Den, hp, ih bf hrest]
    | notVisible => simp [tier1Den, hp, ih bf hrest]
    | visible => exact absurd hp hi

theorem tier1Den_append (m : PageModel) (v : Bool) :
    ∀ (l₁ l₂ : List Nat) (bf : Bool),
      tier1Den m v (l₁ ++ l₂) bf =
        if (tier1Den m v l₁ bf).didReturn then tier1Den m v l₁ bf
        else
          ⟨(tier1Den m v l₁ bf).events ++
             (tier1Den m v l₂ (tier1Den m v l₁ bf).button_found).events,
           (tier1Den m v l₂ (tier1Den m v l₁ bf).button_found).didReturn,
           (tier1Den m v l₂ (tier1Den m v l₁ bf).button_found).button_found⟩ := by
  intro l₁
  induction l₁ with
  | nil => intro l₂ bf; simp [tier1Den]
  | cons i rest ih =>
    intro l₂ bf
    cases hp : m.probe i with
    | throws =>
      cases hdr : (tier1Den m v rest bf).didReturn <;>
        simp [tier1Den, hp, ih, hdr]
    | notVisible =>
      cases hdr : (tier1Den m v rest bf).didReturn <;>
        simp [tier1Den, hp, ih, hdr]
    | visible =>
      cases hc : m.clickThrows i with
      | true =>
        cases hdr : (tier1Den m v rest bf).didReturn <;>
          simp [tier1Den, hp, hc, ih, hdr]
      | false =>
        cases hw : m.waitClickThrows i with
        | true =>
          cases hdr : (tier1Den m v rest true).didReturn <;>
            simp [tier1Den, hp, hc, hw, ih, hdr]
        | false => simp [tier1Den, hp, hc, hw]

theorem tier1Den_first_visible (m : PageModel) (v : Bool) (n i₀ : Nat)
    (hn : i₀ < n) (hbefore : ∀ j < i₀, m.probe j ≠ .visible)
    (hvis : m.probe i₀ = .visible) (hclick : m.clickThrows i₀ = false)
    (hwait : m.waitClickThrows i₀ = false) :
    tier1Den m v (List.range n) false =
      ⟨(List.range i₀).map Event.probe ++
         ([Event.probe i₀, Event.click i₀, Event.waitTimeout 1000] ++
          (if v then [Event.printed "Cookie banner handled"] else [])),
       true, true⟩ := by
  have hsplit : List.range n =
      List.range i₀ ++ (i₀ :: List.range' (i₀ + 1) (n - i₀ - 1)) := by
    have h1 : List.range' 0 i₀ ++ List.range' (0 + i₀) (n - i₀) =
        List.range' 0 (n - i₀ + i₀) := List.range'_append_1 0 i₀ (n - i₀)
    have h2 : n - i₀ + i₀ = n := Nat.sub_add_cancel (Nat.le_of_lt hn)
    have h3 : n - i₀ = (n - i₀ - 1) + 1 := by omega
    rw [List.range_eq_range', ← h2, ← h1, h3, List.range'_succ]
    simp [List.range_eq_range']
  have hpre : ∀ j ∈ List.range i₀, m.probe j ≠ .visible := by
    intro j hj
    exact hbefore j (List.mem_range.mp hj)
  rw [hsplit, tier1Den_append, tier1Den_no_visible m v _ _ hpre]
  simp [tier1Den, hvis, hclick, hwait]

theorem tier1Den_verbose (m : PageModel) :
    ∀ (l : List Nat) (bf : Bool) (v : Bool),
      (tier1Den m v l bf).didReturn = (tier1Den m false l bf).didReturn ∧
      (tier1Den m v l bf).button_found =
        (tier1Den m false l bf).button_found ∧
      (tier1Den m v l bf).events.filter (fun e => ! e.isPrinted) =
        (tier1Den m false l bf).events := by
  intro l
  induction l with
  | nil => intro bf v; simp [tier1Den]
  | cons i rest ih =>
    intro bf v
    cases hp : m.probe i with
    | throws =>
      obtain ⟨h1, h2, h3⟩ := ih bf v
      simp [tier1Den, hp, h1, h2, h3, Event.isPrinted]
      exact h3
    | notVisible =>
      obtain ⟨h1, h2, h3⟩ := ih bf v
      simp [tier1Den, hp, h1, h2, h3, Event.isPrinted]
      exact h3
    | visible =>
      cases hc : m.clickThrows i with
      | true =>
        obtain ⟨h1, h2, h3⟩ := ih bf v
        simp [tier1Den, hp, hc, h1, h2, h3, Event.isPrinted]
        exact h3
      | false =>
        cases hw : m.waitClickThrows i with
        | true =>
          obtain ⟨h1, h2, h3⟩ := ih true v
          simp [tier1Den, hp, hc, hw, h1, h2, h3, Event.isPrinted]
          exact h3
        | false =>
          cases v <;> simp [tier1Den, hp, hc, hw, Event.isPrinted]

theorem tier2Den_verbose (m : PageModel) (v : Bool) :
    (tier2Den m v).2 = (tier2Den m false).2 ∧
      (tier2Den m v).1.filter (fun e => ! e.isPrinted) =
        (tier2Den m false).1 := by
  cases ha : m.addCookiesThrows <;> cases hr : m.reloadThrows <;>
    cases hw : m.waitReloadThrows <;> cases v <;>
      simp [tier2Den, ha, hr, hw, Event.isPrinted]

theorem tier3Den_verbose (m : PageModel) (v : Bool) :
    (tier3Den m v).filter (fun e => ! e.isPrinted) = tier3Den m false := by
  cases hs : m.addStyleThrows <;> cases v <;>
    simp [tier3Den, hs, Event.isPrinted]

theorem resolveDen_verbose (m : PageModel) (v : Bool) :
    (resolveDen m v).filter (fun e => ! e.isPrinted) = resolveDen m false := by
  obtain ⟨h1, h2, h3⟩ :=
    tier1Den_verbose m (List.range accept_selectors.length) false v
  obtain ⟨g1, g2⟩ := tier2Den_verbose m v
  simp only [resolveDen]
  cases hret : (tier1Den m false (List.range accept_selectors.length) false).didReturn with
  | true => simp [h1, hret, h3]
  | false =>
    cases hbf : (tier1Den m false (List.range accept_selectors.length) false).button_found with
    | true =>
      simp [h1, h2, hret, hbf, List.filter_append, h3, tier3Den_verbose]
    | false =>
      cases h2s : (tier2Den m false).2 with
      | true =>
        simp [h1, h2, g1, hret, hbf, h2s, List.filter_append, h3, g2]
      | false =>
        simp [h1, h2, g1, hret, hbf, h2s, List.filter_append, h3, g2,
          tier3Den_verbose]

theorem tier1Den_events_mem (m : PageModel) (v : Bool) :
    ∀ (l : List Nat) (bf : Bool) (e : Event),
      e ∈ (tier1Den m v l bf).events →
        (∃ i ∈ l, e = Event.probe i) ∨ (∃ i ∈ l, e = Event.click i) ∨
          e = Event.waitTimeout 1000 ∨
          e = Event.printed "Cookie banner handled" := by
  intro l
  induction l with
  | nil => intro bf e he; simp [tier1Den] at he
  | cons i rest ih =>
    intro bf e he
    have step : ∀ bf', e ∈ (tier1Den m v rest bf').events →
        (∃ j ∈ i :: rest, e = Event.probe j) ∨
          (∃ j ∈ i :: rest, e = Event.click j) ∨
          e = Event.waitTimeout 1000 ∨
          e = Event.printed "Cookie banner handled" := by
      intro bf' hmem
      rcases ih bf' e hmem with ⟨j, hj, rfl⟩ | ⟨j, hj, rfl⟩ | rfl | rfl
      · exact Or.inl ⟨j, List.mem_cons_of_mem i hj, rfl⟩
      · exact Or.inr (Or.inl ⟨j, List.mem_cons_of_mem i hj, rfl⟩)
      · exact Or.inr (Or.inr (Or.inl rfl))
      · exact Or.inr (Or.inr (Or.inr rfl))
    cases hp : m.probe i with
    | throws =>
      simp only [tier1Den, hp] at he
      rcases List.mem_cons.mp he with rfl | hmem
      · exact Or.inl ⟨i, List.mem_cons_self i rest, rfl⟩
      · exact step bf hmem
    | notVisible =>
      simp only [tier1Den, hp] at he
      rcases List.mem_cons.mp he with rfl | hmem
      · exact Or.inl ⟨i, List.mem_cons_self i rest, rfl⟩
      · exact step bf hmem
    | visible =>
      cases hc : m.clickThrows i with
      | true =>
        simp only [tier1Den, hp, hc, if_true] at he
        rcases List.mem_cons.mp he with rfl | he1
        · exact Or.inl ⟨i, List.mem_cons_self i rest, rfl⟩
        rcases List.mem_cons.mp he1 with rfl | hmem
        · exact Or.inr (Or.inl ⟨i, List.mem_cons_self i rest, rfl⟩)
        · exact step bf hmem
      | false =>
        cases hw : m.waitClickThrows i with
        | true =>
          simp only [tier1Den, hp, hc, hw] at he
          simp only [Bool.false_eq_true, if_false, if_true] at he
          rcases List.mem_cons.mp he with rfl | he1
          · exact Or.inl ⟨i, List.mem_cons_self i rest, rfl⟩
          rcases List.mem_cons.mp he1 with rfl | he2
          · exact Or.inr (Or.inl ⟨i, List.mem_cons_self i rest, rfl⟩)
          rcases List.mem_cons.mp he2 with rfl | hmem
          · exact Or.inr (Or.inr (Or.inl rfl))
          · exact step true hmem
        | false =>
          simp only [tier1Den, hp, hc, hw] at he
          cases v <;> simp at he <;>
            rcases he with rfl | rfl | rfl | rfl <;>
              first
                | exact Or.inl ⟨i, List.mem_cons_self i rest, rfl⟩
                | exact Or.inr (Or.inl ⟨i, List.mem_cons_self i rest, rfl⟩)
                | exact Or.inr (Or.inr (Or.inl rfl))
                | exact Or.inr (Or.inr (Or.inr rfl))

theorem tier2Den_events_mem (m : PageModel) (v : Bool) :
    ∀ e ∈ (tier2Den m v).1,
      e = Event.addCookies "cookie_consent" "accepted" m.url ∨
        e = Event.reload ∨ e = Event.waitTimeout 1000 ∨
        e = Event.printed "Cookie consent injected via cookie" := by
  intro e he
  cases ha : m.addCookiesThrows <;> cases hr : m.reloadThrows <;>
    cases hw : m.waitReloadThrows <;> cases v <;>
      simp [tier2Den, ha, hr, hw] at he <;> tauto

theorem tier3Den_events_mem (m : PageModel) (v : Bool) :
    ∀ e ∈ tier3Den m v,
      e = Event.addStyle hide_css ∨
        e = Event.printed "Cookie banners hidden via CSS" := by
  intro e he
  cases hs : m.addStyleThrows <;> cases v <;>
    simp [tier3Den, hs] at he <;> tauto

theorem resolveDen_mem (m : PageModel) (v : Bool) (e : Event)
    (he : e ∈ resolveDen m v) :
    e ∈ (tier1Den m v (List.range accept_selectors.length) false).events ∨
      e ∈ (tier2Den m v).1 ∨ e ∈ tier3Den m v := by
  simp only [resolveDen] at he
  split at he
  · exact Or.inl he
  · split at he
    · rcases List.mem_append.mp he with h | h
      · exact Or.inl h
      · exact Or.inr (Or.inr h)
    · split at he
      · rcases List.mem_append.mp he with h | h
        · exact Or.inl h
        · exact Or.inr (Or.inl h)
      · rcases List.mem_append.mp he with h | h
        · rcases List.mem_append.mp h with h1 | h1
          · exact Or.inl h1
          · exact Or.inr (Or.inl h1)
        · exact Or.inr (Or.inr h)

theorem resolveDen_pageOps (m : PageModel) (v : Bool) :
    ∀ e ∈ resolveDen m v, e.isPageOp = true := by
  intro e he
  rcases resolveDen_mem m v e he with h | h | h
  · rcases tier1Den_events_mem m v _ _ e h with ⟨j, _, rfl⟩ | ⟨j, _, rfl⟩ | rfl | rfl <;>
      simp [Event.isPageOp]
  · rcases tier2Den_events_mem m v e h with rfl | rfl | rfl | rfl <;>
      simp [Event.isPageOp]
  · rcases tier3Den_events_mem m v e h with rfl | rfl <;> simp [Event.isPageOp]

theorem tier2Den_snd (m : PageModel) (v : Bool) :
    (tier2Den m v).2 =
      (!m.addCookiesThrows && !m.reloadThrows && !m.waitReloadThrows) := by
  cases ha : m.addCookiesThrows <;> cases hr : m.reloadThrows <;>
    cases hw : m.waitReloadThrows <;> simp [tier2Den, ha, hr, hw]

theorem tier1Den_any_style (m : PageModel) (v : Bool) (l : List Nat)
    (bf : Bool) :
    ((tier1Den m v l bf).events.any (fun e => e.isStyle)) = false := by
  rw [List.any_eq_false]
  intro e he
  rcases tier1Den_events_mem m v l bf e he with
    ⟨j, _, rfl⟩ | ⟨j, _, rfl⟩ | rfl | rfl <;> simp [Event.isStyle]

theorem tier2Den_any_style (m : PageModel) (v : Bool) :
    ((tier2Den m v).1.any (fun e => e.isStyle)) = false := by
  rw [List.any_eq_false]
  intro e he
  rcases tier2Den_events_mem m v e he with rfl | rfl | rfl | rfl <;>
    simp [Event.isStyle]

theorem tier3Den_any_style (m : PageModel) (v : Bool) :
    (tier3Den m v).any (fun e => e.isStyle) = true := by
  cases hs : m.addStyleThrows <;> cases v <;>
    simp [tier3Den, Event.isStyle, hs]

theorem tier1Den_any_addCookies (m : PageModel) (v : Bool) (l : List Nat)
    (bf : Bool) :
    ((tier1Den m v l bf).events.any (fun e => e.isAddCookies)) = false := by
  rw [List.any_eq_false]
  intro e he
  rcases tier1Den_events_mem m v l bf e he with
    ⟨j, _, rfl⟩ | ⟨j, _, rfl⟩ | rfl | rfl <;> simp [Event.isAddCookies]

theorem tier2Den_any_addCookies (m : PageModel) (v : Bool) :
    ((tier2Den m v).1.any (fun e => e.isAddCookies)) = true := by
  cases ha : m.addCookiesThrows <;> cases hr : m.reloadThrows <;>
    cases hw : m.waitReloadThrows <;> cases v <;>
      simp [tier2Den, ha, hr, hw, Event.isAddCookies]

theorem tier3Den_any_addCookies (m : PageModel) (v : Bool) :
    ((tier3Den m v).any (fun e => e.isAddCookies)) = false := by
  cases hs : m.addStyleThrows <;> cases v <;>
    simp [tier3Den, Event.isAddCookies, hs]

theorem resolveDen_any_style (m : PageModel) (v : Bool) :
    (resolveDen m v).any (fun e => e.isStyle) =
      (!tier1Returned m v && !tier2Succeeded m v) := by
  simp only [resolveDen, tier1Returned, buttonFound, tier2Succeeded]
  cases hret :
      (tier1Den m v (List.range accept_selectors.length) false).didReturn
  · cases hbf :
        (tier1Den m v (List.range accept_selectors.length) false).button_found
    · have h2 := tier2Den_snd m v
      cases h2' : (tier2Den m v).2
      · rw [h2'] at h2
        simp [hret, hbf, h2', List.any_append, tier1Den_any_style,
          tier2Den_any_style, tier3Den_any_style, tier1Returned, buttonFound,
          ← h2]
      · rw [h2'] at h2
        simp [hret, hbf, h2', List.any_append, tier1Den_any_style,
          tier2Den_any_style, tier1Returned, buttonFound, ← h2]
    · simp [hret, hbf, List.any_append, tier1Den_any_style, tier3Den_any_style,
        tier1Returned, buttonFound]
  · simp [hret, tier1Den_any_style, tier1Returned]

theorem resolveDen_any_addCookies (m : PageModel) (v : Bool) :
    (resolveDen m v).any (fun e => e.isAddCookies) =
      (!tier1Returned m v && !buttonFound m v) := by
  simp only [resolveDen, tier1Returned, buttonFound]
  cases hret :
      (tier1Den m v (List.range accept_selectors.length) false).didReturn
  · cases hbf :
        (tier1Den m v (List.range accept_selectors.length) false).button_found
    · cases h2 : (tier2Den m v).2 <;>
        simp [hret, hbf, h2, List.any_append, tier1Den_any_addCookies,
          tier2Den_any_addCookies, tier3Den_any_addCookies]
    · simp [hret, hbf, List.any_append, tier1Den_any_addCookies,
        tier3Den_any_addCookies]
  · simp [hret, tier1Den_any_addCookies]

theorem resolveDen_tier3_last (m : PageModel) (v : Bool)
    (h : (!tier1Returned m v && !tier2Succeeded m v) = true) :
    ∃ pre, resolveDen m v = pre ++ tier3Den m v := by
  simp only [tier1Returned, tier2Succeeded, buttonFound] at h
  simp only [resolveDen]
  cases hret :
      (tier1Den m v (List.range accept_selectors.length) false).didReturn
  · cases hbf :
        (tier1Den m v (List.range accept_selectors.length) false).button_found
    · cases h2' : (tier2Den m v).2
      · exact ⟨(tier1Den m v (List.range accept_selectors.length) false).events
            ++ (tier2Den m v).1, by simp [hret, hbf, h2']⟩
      · exfalso
        have hsucc :
            (!m.addCookiesThrows && !m.reloadThrows && !m.waitReloadThrows) =
              true := by rw [← tier2Den_snd m v, h2']
        simp [hret, hbf, hsucc] at h
    · exact ⟨(tier1Den m v (List.range accept_selectors.length) false).events,
        by simp [hret, hbf]⟩
  · simp [hret] at h

theorem resolveDen_no_visible (m : PageModel) (v : Bool)
    (hnone : ∀ j ∈ List.range accept_selectors.length,
      m.probe j ≠ ProbeOutcome.visible) :
    resolveDen m v =
      (List.range accept_selectors.length).map Event.probe ++
        (tier2Den m v).1 ++
        (if (tier2Den m v).2 then [] else tier3Den m v) := by
  simp only [resolveDen]
  rw [tier1Den_no_visible m v _ false hnone]
  cases h2 : (tier2Den m v).2 <;> simp [h2]

theorem tier1Den_tierNums (m : PageModel) (v : Bool) (l : List Nat)
    (bf : Bool) :
    ∀ x ∈ (tier1Den m v l bf).events.filterMap Event.tierNum, x = 1 := by
  intro x hx
  rcases List.mem_filterMap.mp hx with ⟨e, he, hfe⟩
  rcases tier1Den_events_mem m v l bf e he with
    ⟨j, _, rfl⟩ | ⟨j, _, rfl⟩ | rfl | rfl <;>
    simp [Event.tierNum] at hfe <;> omega

theorem tier2Den_tierNums (m : PageModel) (v : Bool) :
    ∀ x ∈ (tier2Den m v).1.filterMap Event.tierNum, x = 2 := by
  intro x hx
  rcases List.mem_filterMap.mp hx with ⟨e, he, hfe⟩
  rcases tier2Den_events_mem m v e he with rfl | rfl | rfl | rfl <;>
    simp [Event.tierNum] at hfe <;> omega

theorem tier3Den_tierNums (m : PageModel) (v : Bool) :
    ∀ x ∈ (tier3Den m v).filterMap Event.tierNum, x = 3 := by
  intro x hx
  rcases List.mem_filterMap.mp hx with ⟨e, he, hfe⟩
  rcases tier3Den_events_mem m v e he with rfl | rfl <;>
    simp [Event.tierNum] at hfe <;> omega

theorem pairwise_le_of_const {l : List Nat} {a : Nat} (h : ∀ x ∈ l, x = a) :
    List.Pairwise (· ≤ ·) l :=
  List.pairwise_of_forall_mem_list fun x hx y hy => by
    rw [h x hx, h y hy]

theorem pairwise_le_append_of_consts {l₁ l₂ : List Nat} {a b : Nat}
    (hab : a ≤ b) (h₁ : ∀ x ∈ l₁, x = a) (h₂ : ∀ x ∈ l₂, x = b) :
    List.Pairwise (· ≤ ·) (l₁ ++ l₂) := by
  rw [List.pairwise_append]
  refine ⟨pairwise_le_of_const h₁, pairwise_le_of_const h₂, ?_⟩
  intro x hx y hy
  rw [h₁ x hx, h₂ y hy]
  exact hab

theorem resolveDen_tierNums_sorted (m : PageModel) (v : Bool) :
    List.Pairwise (· ≤ ·) ((resolveDen m v).filterMap Event.tierNum) := by
  simp only [resolveDen]
  cases hret :
      (tier1Den m v (List.range accept_selectors.length) false).didReturn
  · cases hbf :
        (tier1Den m v (List.range accept_selectors.length) false).button_found
    · cases h2 : (tier2Den m v).2
      · simp only [hret, hbf, h2, Bool.false_eq_true, if_false,
          List.append_assoc, List.filterMap_append]
        rw [List.pairwise_append]
        refine ⟨pairwise_le_of_const (tier1Den_tierNums m v _ _),
          pairwise_le_append_of_consts (by omega) (tier2Den_tierNums m v)
            (tier3Den_tierNums m v), ?_⟩
        intro x hx y hy
        rw [tier1Den_tierNums m v _ _ x hx]
        rcases List.mem_append.mp hy with h | h
        · rw [tier2Den_tierNums m v y h]; omega
        · rw [tier3Den_tierNums m v y h]; omega
      · simp only [hret, hbf, h2, Bool.false_eq_true, if_false, if_true,
          List.filterMap_append]
        exact pairwise_le_append_of_consts (by omega)
          (tier1Den_tierNums m v _ _) (tier2Den_tierNums m v)
    · simp only [hret, hbf, Bool.false_eq_true, if_false, if_true,
        List.filterMap_append]
      exact pairwise_le_append_of_consts (by omega)
        (tier1Den_tierNums m v _ _) (tier3Den_tierNums m v)
  · simp only [hret, if_true]
    exact pairwise_le_of_const (tier1Den_tierNums m v _ _)

/-- Claim C2: for every page state and every combination of failures of the
probing, clicking, cookie-injection, style-injection, reload and wait
operations (including every operation failing), handle_cookie_consent
returns normally: its result is never an error, whatever trace it starts
from. -/
theorem handle_cookie_consent_never_raises (m : PageModel) (verbose : Bool)
    (tr : List Event) :
    (handle_cookie_consent m verbose tr).1 = Except.ok () := by
  rw [handle_cookie_consent_eq]

/-- Claim C10: the verbose flag does not change the page side effects of
handle_cookie_consent: erasing printed diagnostics from the two traces
yields the same sequence of clicks, cookie injections, reloads, waits and
style injections, and both runs return the same result. -/
theorem verbose_does_not_change_side_effects (m : PageModel) :
    (resolveTrace m true).filter (fun e => ! e.isPrinted) =
        (resolveTrace m false).filter (fun e => ! e.isPrinted) ∧
      (handle_cookie_consent m true []).1 =
        (handle_cookie_consent m false []).1 := by
  constructor
  · unfold resolveTrace
    rw [handle_cookie_consent_eq, handle_cookie_consent_eq]
    simp only [List.nil_append]
    rw [resolveDen_verbose m true, resolveDen_verbose m false]
  · rw [handle_cookie_consent_eq, handle_cookie_consent_eq]

/-- Claim C1 counterexample: on a page where no selector matches and the
cookie injection, reload and settling wait all succeed, Tier 2 runs to
completion (the consent cookie is injected and the page reloaded) and yet
no style injection is ever attempted: the source returns right after the
Tier 2 reload, so Tier 3 does not run when Tier 2 succeeds. -/
theorem tier3_skipped_when_tier2_succeeds :
    Event.addCookies "cookie_consent" "accepted" "https://example.com"
        ∈ resolveTrace mAllOk false ∧
      Event.reload ∈ resolveTrace mAllOk false ∧
      (resolveTrace mAllOk false).any (fun e => e.isStyle) = false := by
  decide

/-- Claim C1 (amended): the style-suppression injection is attempted exactly
when neither the Tier 1 loop nor the Tier 2 cookie-injection block executed
a return statement — in particular it is skipped whenever Tier 2 succeeds —
and when it is attempted it forms the final block of the resolution trace. -/
theorem tier3_attempted_iff_tiers12_did_not_return (m : PageModel)
    (v : Bool) :
    ((resolveTrace m v).any (fun e => e.isStyle) =
        (!tier1Returned m v && !tier2Succeeded m v)) ∧
      ((!tier1Returned m v && !tier2Succeeded m v) = true →
        ∃ pre, resolveTrace m v = pre ++ tier3Den m v) := by
  unfold resolveTrace
  rw [handle_cookie_consent_eq]
  simp only [List.nil_append]
  exact ⟨resolveDen_any_style m v, resolveDen_tier3_last m v⟩

/-- Witness for the amended claim C1, on a page where the injection fails:
the style suppression is attempted and closes the trace. -/
theorem tier3_attempted_iff_tiers12_did_not_return_witness :
    (resolveTrace mInjectFail false).any (fun e => e.isStyle) = true ∧
      ∃ pre, resolveTrace mInjectFail false =
        pre ++ tier3Den mInjectFail false := by
  obtain ⟨h1, h2⟩ := tier3_attempted_iff_tiers12_did_not_return mInjectFail false
  refine ⟨?_, h2 (by decide)⟩
  rw [h1]
  decide

/-- Claim C3: if catalog entry i₀ has a visible element (whose click and
settling wait succeed) and no earlier entry shows a visible element —
earlier probes may throw or report no match, and the loop continues past
them — then Tier 1 probes every earlier entry, clicks entry i₀, and never
probes or clicks any later entry. -/
theorem tier1_clicks_first_visible_entry (m : PageModel) (v : Bool)
    (i₀ : Nat) (hn : i₀ < accept_selectors.length)
    (hbefore : ∀ j, j < i₀ → m.probe j ≠ ProbeOutcome.visible)
    (hvis : m.probe i₀ = ProbeOutcome.visible)
    (hclick : m.clickThrows i₀ = false)
    (hwait : m.waitClickThrows i₀ = false) :
    Event.click i₀ ∈ resolveTrace m v ∧
      (∀ j, j < i₀ → Event.probe j ∈ resolveTrace m v) ∧
      (∀ j, i₀ < j → Event.probe j ∉ resolveTrace m v) ∧
      (∀ j, j ≠ i₀ → Event.click j ∉ resolveTrace m v) := by
  unfold resolveTrace
  rw [handle_cookie_consent_eq]
  simp only [List.nil_append, resolveDen]
  rw [tier1Den_first_visible m v _ i₀ hn hbefore hvis hclick hwait]
  refine ⟨?_, ?_, ?_, ?_⟩
  · cases v <;> simp
  · intro j hj
    cases v <;> simp [hj]
  · intro j hj
    cases v <;> simp <;> omega
  · intro j hj
    cases v <;> simp <;> omega

/-- Witness for claim C3: on a page where probing entry 1 throws and entry 3
is the first visible entry, entry 3 is clicked, entry 1 was still probed,
and entry 5 is never probed. -/
theorem tier1_clicks_first_visible_entry_witness :
    Event.click 3 ∈ resolveTrace mThirdVisible false ∧
      Event.probe 1 ∈ resolveTrace mThirdVisible false ∧
      Event.probe 5 ∉ resolveTrace mThirdVisible false := by
  obtain ⟨h1, h2, h3, _⟩ := tier1_clicks_first_visible_entry mThirdVisible
    false 3 (by decide) (by decide) (by decide) (by decide) (by decide)
  exact ⟨h1, h2 1 (by omega), h3 5 (by omega)⟩

/-- Claim C4: when no catalog entry shows a visible element, Tier 2 injects
the consent cookie scoped to the current page URL exactly once and performs
no click; when the injection succeeds the reload is triggered exactly once;
when the injection itself fails it is not retried, no reload happens, and
control falls through to the Tier 3 style suppression. -/
theorem tier2_injects_cookie_and_reloads_when_no_match (m : PageModel)
    (v : Bool)
    (hnone : ∀ i, i < accept_selectors.length →
      m.probe i ≠ ProbeOutcome.visible) :
    Event.addCookies "cookie_consent" "accepted" m.url ∈ resolveTrace m v ∧
      (resolveTrace m v).countP (fun e => e.isAddCookies) = 1 ∧
      (resolveTrace m v).countP (fun e => e.isClick) = 0 ∧
      (m.addCookiesThrows = false →
        (resolveTrace m v).countP (fun e => e.isReload) = 1) ∧
      (m.addCookiesThrows = true →
        (resolveTrace m v).countP (fun e => e.isReload) = 0 ∧
          (resolveTrace m v).any (fun e => e.isStyle) = true) := by
  have hmem : ∀ j ∈ List.range accept_selectors.length,
      m.probe j ≠ ProbeOutcome.visible := fun j hj =>
    hnone j (List.mem_range.mp hj)
  unfold resolveTrace
  rw [handle_cookie_consent_eq]
  simp only [List.nil_append]
  rw [resolveDen_no_visible m v hmem]
  cases ha : m.addCookiesThrows <;> cases hr : m.reloadThrows <;>
    cases hw : m.waitReloadThrows <;> cases hs : m.addStyleThrows <;>
      cases v <;>
        simp [tier2Den, tier3Den, ha, hr, hw, hs, List.countP_append,
          List.countP_map, List.countP_cons, Function.comp, Function.const,
          Event.isAddCookies, Event.isClick, Event.isReload, Event.isStyle,
          List.any_append]

/-- Witness for claim C4: on a page with no matching selector and a healthy
browser, the consent cookie scoped to the page URL is injected and exactly
one reload is triggered. -/
theorem tier2_injects_cookie_and_reloads_when_no_match_witness :
    Event.addCookies "cookie_consent" "accepted" "https://example.com"
        ∈ resolveTrace mAllOk false ∧
      (resolveTrace mAllOk false).countP (fun e => e.isReload) = 1 := by
  obtain ⟨h1, _, _, h4, _⟩ :=
    tier2_injects_cookie_and_reloads_when_no_match mAllOk false (by decide)
  exact ⟨h1, h4 rfl⟩

/-- Claim C5: the tiers execute in strict order (every Tier 1 action event
precedes every Tier 2 action event, which precedes any Tier 3 event);
Tier 2 is attempted only when Tier 1 neither returned nor found a button;
Tier 3 is attempted only when, in addition, Tier 2 did not succeed; and
when Tier 1 finds nothing to click and the Tier 2 injection fails, the
style suppression is still applied and resolution returns normally. -/
theorem tiers_execute_in_strict_order (m : PageModel) (v : Bool) :
    List.Pairwise (· ≤ ·) ((resolveTrace m v).filterMap Event.tierNum) ∧
      ((resolveTrace m v).any (fun e => e.isAddCookies) = true →
        tier1Returned m v = false ∧ buttonFound m v = false) ∧
      ((resolveTrace m v).any (fun e => e.isStyle) = true →
        tier1Returned m v = false ∧ tier2Succeeded m v = false) ∧
      ((∀ i, i < accept_selectors.length →
          m.probe i ≠ ProbeOutcome.visible) →
        m.addCookiesThrows = true →
        (resolveTrace m v).any (fun e => e.isStyle) = true ∧
          (handle_cookie_consent m v []).1 = Except.ok ()) := by
  have htr : resolveTrace m v = resolveDen m v := by
    unfold resolveTrace
    rw [handle_cookie_consent_eq]
    simp
  refine ⟨?_, ?_, ?_, ?_⟩
  · rw [htr]
    exact resolveDen_tierNums_sorted m v
  · rw [htr, resolveDen_any_addCookies]
    intro h
    simp only [Bool.and_eq_true, Bool.not_eq_true'] at h
    exact h
  · rw [htr, resolveDen_any_style]
    intro h
    simp only [Bool.and_eq_true, Bool.not_eq_true'] at h
    exact h
  · intro hnone ha
    have hmem : ∀ j ∈ List.range accept_selectors.length,
        m.probe j ≠ ProbeOutcome.visible := fun j hj =>
      hnone j (List.mem_range.mp hj)
    have h2 : (tier2Den m v).2 = false := by
      rw [tier2Den_snd, ha]
      simp
    constructor
    · rw [htr, resolveDen_no_visible m v hmem]
      simp only [h2, Bool.false_eq_true, if_false, List.any_append,
        tier3Den_any_style, Bool.or_true]
    · rw [handle_cookie_consent_eq]

/-- Witness for claim C5: on a page with no matching selector whose cookie
injection fails, the style suppression is attempted and the resolver still
returns normally. -/
theorem tiers_execute_in_strict_order_witness :
    (resolveTrace mInjectFail false).any (fun e => e.isStyle) = true ∧
      (handle_cookie_consent mInjectFail false []).1 = Except.ok () := by
  exact (tiers_execute_in_strict_order mInjectFail false).2.2.2
    (by decide) (by decide)

theorem profileTry_eq (pm : ProfileModel) (url path : String)
    (v sk : Bool) (tr : List Event) :
    profileTry pm url path v sk tr =
      ((profileTryDen pm url path v sk).1,
       tr ++ (profileTryDen pm url path v sk).2) := by
  cases hg : pm.gotoThrows <;> cases hsk : sk <;>
    cases hw : pm.waitStabilizeThrows <;> cases hs : pm.screenshotThrows <;>
      simp [profileTry, profileTryDen, goto, screenshot, wait_for_timeout,
        handle_cookie_consent_eq, hg, hsk, hw, hs]

theorem profileBlock_eq (pm : ProfileModel) (url path : String) (w h : Nat)
    (sm ep : String) (v sk : Bool) (tr : List Event) :
    profileBlock pm url path w h sm ep v sk tr =
      (.ok (), tr ++ profileDen pm url path w h sm ep v sk) := by
  simp only [profileBlock, profileDen]
  rw [profileTry_eq]
  cases hr : (profileTryDen pm url path v sk).1 <;> cases v <;> simp [hr]

theorem ts_profiles_eq (cm : CaptureModel) (url sdir : String) (v sk : Bool)
    (tr : List Event) :
    ts_profiles cm url sdir v sk tr =
      (.ok (), tr ++ tsProfilesDen cm url sdir v sk) := by
  simp only [ts_profiles, tsProfilesDen]
  cases v <;> simp [profileBlock_eq]

theorem take_screenshots_eq (cm : CaptureModel) (url odir : String)
    (v sk : Bool) (tr : List Event) :
    take_screenshots cm url odir v sk tr =
      (.ok (), tr ++ tsDen cm url odir v sk) := by
  simp only [take_screenshots, ts_body, tsDen]
  cases hl : cm.launchThrows <;> cases v <;> simp [ts_profiles_eq, hl]

theorem tsTrace_eq (cm : CaptureModel) (url odir : String) (v sk : Bool) :
    tsTrace cm url odir v sk = tsDen cm url odir v sk := by
  unfold tsTrace
  rw [take_screenshots_eq]
  simp

theorem resolveDen_screenshot_false (m : PageModel) (v : Bool) :
    ∀ e ∈ resolveDen m v, e.isScreenshot = false := by
  intro e he
  have h := resolveDen_pageOps m v e he
  cases e <;> simp_all [Event.isScreenshot, Event.isPageOp]

theorem resolveDen_closeContext_false (m : PageModel) (v : Bool) :
    ∀ e ∈ resolveDen m v, e.isCloseContext = false := by
  intro e he
  have h := resolveDen_pageOps m v e he
  cases e <;> simp_all [Event.isCloseContext, Event.isPageOp]

theorem profileTryDen_events_mem (pm : ProfileModel) (url path : String)
    (v sk : Bool) :
    ∀ e ∈ (profileTryDen pm url path v sk).2,
      e ∈ resolveDen pm.page v ∨ e = Event.goto url 30000 ∨
        e = Event.waitTimeout 2000 ∨ e = Event.screenshot path := by
  intro e he
  cases hg : pm.gotoThrows <;> cases hsk : sk <;>
    cases hw : pm.waitStabilizeThrows <;> cases hs : pm.screenshotThrows <;>
      simp [profileTryDen, hg, hsk, hw, hs] at he <;> tauto

theorem profileTryDen_closeContext_false (pm : ProfileModel)
    (url path : String) (v sk : Bool) :
    ∀ e ∈ (profileTryDen pm url path v sk).2, e.isCloseContext = false := by
  intro e he
  rcases profileTryDen_events_mem pm url path v sk e he with h | rfl | rfl | rfl
  · exact resolveDen_closeContext_false pm.page v e h
  · rfl
  · rfl
  · rfl

theorem profileDen_countP_closeContext (pm : ProfileModel)
    (url path : String) (w h : Nat) (sm ep : String) (v sk : Bool) :
    (profileDen pm url path w h sm ep v sk).countP
      (fun e => e.isCloseContext) = 1 := by
  cases hr : (profileTryDen pm url path v sk).1 <;> cases v <;>
    simp [profileDen, hr, List.countP_append, List.countP_cons,
      Event.isCloseContext] <;>
    exact profileTryDen_closeContext_false pm url path _ sk

theorem profileTryDen_countP_screenshot (pm : ProfileModel)
    (url path : String) (v sk : Bool) :
    ((profileTryDen pm url path v sk).2.countP
      (fun e => e.isScreenshot)) =
      if !pm.gotoThrows && (sk || !pm.waitStabilizeThrows) then 1 else 0 := by
  cases hg : pm.gotoThrows <;> cases hsk : sk <;>
    cases hw : pm.waitStabilizeThrows <;> cases hs : pm.screenshotThrows <;>
      simp [profileTryDen, hg, hsk, hw, hs, List.countP_append,
        List.countP_cons, Event.isScreenshot] <;>
      exact resolveDen_screenshot_false pm.page v

theorem profileDen_countP_screenshot (pm : ProfileModel)
    (url path : String) (w h : Nat) (sm ep : String) (v sk : Bool) :
    (profileDen pm url path w h sm ep v sk).countP
      (fun e => e.isScreenshot) =
      if !pm.gotoThrows && (sk || !pm.waitStabilizeThrows) then 1 else 0 := by
  rw [← profileTryDen_countP_screenshot pm url path v sk]
  cases hr : (profileTryDen pm url path v sk).1 <;> cases v <;>
    simp [profileDen, hr, List.countP_append, List.countP_cons,
      Event.isScreenshot]

theorem resolveDen_ctxWidth_none (m : PageModel) (v : Bool) :
    ∀ e ∈ resolveDen m v, e.ctxWidth = none := by
  intro e he
  have h := resolveDen_pageOps m v e he
  cases e <;> simp_all [Event.ctxWidth, Event.isPageOp]

theorem profileTryDen_filterMap_ctxWidth (pm : ProfileModel)
    (url path : String) (v sk : Bool) :
    (profileTryDen pm url path v sk).2.filterMap Event.ctxWidth = [] := by
  rw [List.filterMap_eq_nil_iff]
  intro e he
  rcases profileTryDen_events_mem pm url path v sk e he with h | rfl | rfl | rfl
  · exact resolveDen_ctxWidth_none pm.page v e h
  · rfl
  · rfl
  · rfl

theorem profileDen_filterMap_ctxWidth (pm : ProfileModel)
    (url path : String) (w h : Nat) (sm ep : String) (v sk : Bool) :
    (profileDen pm url path w h sm ep v sk).filterMap Event.ctxWidth =
      [w] := by
  cases hr : (profileTryDen pm url path v sk).1 <;> cases v <;>
    (simp only [profileDen, hr, List.filterMap_append,
       profileTryDen_filterMap_ctxWidth pm url path]
     simp [Event.ctxWidth])

/-- Claim C6: with the browser launched, take_screenshots attempts the
desktop and the mobile profile in that fixed order (the context creations
are exactly desktop 1920 wide then mobile 375 wide); every profile-level
failure (navigation, post-consent stabilization, screenshot write) stays
inside its profile: the screenshot attempts are exactly those of the
profiles that reach the screenshot call, the mobile screenshot is still
attempted when the desktop navigation failed, and both browsing contexts
are closed on every combination of failures. -/
theorem capture_attempts_both_profiles (cm : CaptureModel)
    (url odir : String) (v sk : Bool) (hl : cm.launchThrows = false) :
    (tsTrace cm url odir v sk).filterMap Event.ctxWidth = [1920, 375] ∧
      (tsTrace cm url odir v sk).countP (fun e => e.isCloseContext) = 2 ∧
      (tsTrace cm url odir v sk).countP (fun e => e.isScreenshot) =
        ((if !cm.desktop.gotoThrows &&
             (sk || !cm.desktop.waitStabilizeThrows) then 1 else 0) +
          (if !cm.mobile.gotoThrows &&
             (sk || !cm.mobile.waitStabilizeThrows) then 1 else 0)) ∧
      (cm.desktop.gotoThrows = true → cm.mobile.gotoThrows = false →
        (sk = true ∨ cm.mobile.waitStabilizeThrows = false) →
        Event.screenshot
            (String.append (String.append odir "/screenshots") "/mobile.png")
          ∈ tsTrace cm url odir v sk) := by
  rw [tsTrace_eq]
  refine ⟨?_, ?_, ?_, ?_⟩
  · simp only [tsDen, tsProfilesDen, hl, Bool.false_eq_true, if_false,
      List.filterMap_append, List.filterMap_cons, profileDen_filterMap_ctxWidth]
    cases v <;> simp [Event.ctxWidth]
  · simp only [tsDen, tsProfilesDen, hl, Bool.false_eq_true, if_false,
      List.countP_append, List.countP_cons, profileDen_countP_closeContext]
    cases v <;> simp [Event.isCloseContext]
  · simp only [tsDen, tsProfilesDen, hl, Bool.false_eq_true, if_false,
      List.countP_append, List.countP_cons, profileDen_countP_screenshot]
    cases v <;> simp [Event.isScreenshot]
  · intro hd hm hOr
    have hmem : Event.screenshot
        (String.append (String.append odir "/screenshots") "/mobile.png") ∈
        (profileTryDen cm.mobile url
          (String.append (String.append odir "/screenshots") "/mobile.png")
          v sk).2 := by
      rcases hOr with rfl | hw
      · cases hs : cm.mobile.screenshotThrows <;>
          simp [profileTryDen, hm, hs]
      · cases hsk : sk <;> cases hs : cm.mobile.screenshotThrows <;>
          simp [profileTryDen, hm, hw, hsk, hs]
    simp only [tsDen, tsProfilesDen, hl, Bool.false_eq_true, if_false]
    cases hr : (profileTryDen cm.mobile url
        (String.append (String.append odir "/screenshots") "/mobile.png")
        v sk).1 <;>
      cases v <;> simp [profileDen, hr] <;> tauto

/-- Witness for claim C6: with a failing desktop navigation and a healthy
mobile profile, both contexts are attempted in order and the mobile
screenshot is still written. -/
theorem capture_attempts_both_profiles_witness :
    (tsTrace cmDesktopNavFail "https://example.com" "./out" false
        false).filterMap Event.ctxWidth = [1920, 375] ∧
      Event.screenshot
          (String.append (String.append "./out" "/screenshots") "/mobile.png")
        ∈ tsTrace cmDesktopNavFail "https://example.com" "./out" false
          false := by
  obtain ⟨h1, _, _, h4⟩ := capture_attempts_both_profiles cmDesktopNavFail
    "https://example.com" "./out" false false rfl
  exact ⟨h1, h4 rfl rfl (Or.inr rfl)⟩

theorem profileDen_countP_consentOp_skip (pm : ProfileModel)
    (url path : String) (w h : Nat) (sm ep : String) (v : Bool) :
    (profileDen pm url path w h sm ep v true).countP
      (fun e => e.isConsentOp) = 0 := by
  cases hg : pm.gotoThrows <;> cases hs : pm.screenshotThrows <;> cases v <;>
    simp [profileDen, profileTryDen, hg, hs, List.countP_append,
      List.countP_cons, Event.isConsentOp]

theorem profileDen_consentOp_false_skip (pm : ProfileModel)
    (url path : String) (w h : Nat) (sm ep : String) (v : Bool) :
    ∀ e ∈ profileDen pm url path w h sm ep v true,
      e.isConsentOp = false := by
  intro e he
  have := List.countP_eq_zero.mp
    (profileDen_countP_consentOp_skip pm url path w h sm ep v) e he
  simpa using this

/-- Claim C8: with skip-cookies set, the resolver is never invoked for
either profile: whatever the fault oracle, the capture trace contains zero
selector probes, clicks, cookie injections, reloads and style injections;
and when launch and both navigations succeed, both screenshots are still
attempted. -/
theorem skip_cookies_never_resolves (cm : CaptureModel) (url odir : String)
    (v : Bool) :
    (tsTrace cm url odir v true).countP (fun e => e.isConsentOp) = 0 ∧
      (cm.launchThrows = false → cm.desktop.gotoThrows = false →
        cm.mobile.gotoThrows = false →
        Event.screenshot
            (String.append (String.append odir "/screenshots") "/desktop.png")
          ∈ tsTrace cm url odir v true ∧
        Event.screenshot
            (String.append (String.append odir "/screenshots") "/mobile.png")
          ∈ tsTrace cm url odir v true) := by
  rw [tsTrace_eq]
  constructor
  · cases hl : cm.launchThrows <;> cases v <;>
      simp [tsDen, tsProfilesDen, hl, List.countP_append, List.countP_cons,
        Event.isConsentOp, profileDen_countP_consentOp_skip] <;>
      exact ⟨profileDen_consentOp_false_skip _ _ _ _ _ _ _ _,
        profileDen_consentOp_false_skip _ _ _ _ _ _ _ _⟩
  · intro hl hd hm
    constructor
    · cases hs : cm.desktop.screenshotThrows <;> cases v <;>
        simp [tsDen, tsProfilesDen, profileDen, profileTryDen, hl, hd, hs]
    · cases hs : cm.mobile.screenshotThrows <;> cases v <;>
        simp [tsDen, tsProfilesDen, profileDen, profileTryDen, hl, hm, hs]

/-- Witness for claim C8: on a healthy run with skip-cookies, no consent
operation happens and the desktop screenshot is attempted. -/
theorem skip_cookies_never_resolves_witness :
    (tsTrace cmAllOk "https://example.com" "./out" false true).countP
        (fun e => e.isConsentOp) = 0 ∧
      Event.screenshot
          (String.append (String.append "./out" "/screenshots")
            "/desktop.png")
        ∈ tsTrace cmAllOk "https://example.com" "./out" false true := by
  obtain ⟨h1, h2⟩ :=
    skip_cookies_never_resolves cmAllOk "https://example.com" "./out" false
  exact ⟨h1, (h2 rfl rfl rfl).1⟩

/-- Claim C9 counterexample: with verbose off, a desktop navigation failure
(a recovered per-profile failure) still produces a diagnostic line: the
per-profile error print of the source is not gated on verbose. -/
theorem nonverbose_profile_failure_still_prints :
    Event.printed "Error taking desktop screenshot: goto"
      ∈ tsTrace cmDesktopNavFail "https://example.com" "./output" false
        false := by
  decide

theorem profileDen_error_print_mem (pm : ProfileModel) (url path : String)
    (w h : Nat) (sm ep : String) (v sk : Bool) (e : String)
    (hr : (profileTryDen pm url path v sk).1 = Except.error e) :
    Event.printed (String.append ep e)
      ∈ profileDen pm url path w h sm ep v sk := by
  cases v <;> simp [profileDen, hr]

theorem profileTryDen_goto_error (pm : ProfileModel) (url path : String)
    (v sk : Bool) (hg : pm.gotoThrows = true) :
    (profileTryDen pm url path v sk).1 = Except.error "goto" := by
  simp [profileTryDen, hg]

theorem profileTryDen_wait_error (pm : ProfileModel) (url path : String)
    (v : Bool) (hg : pm.gotoThrows = false)
    (hw : pm.waitStabilizeThrows = true) :
    (profileTryDen pm url path v false).1 = Except.error "wait" := by
  simp [profileTryDen, hg, hw]

theorem profileTryDen_screenshot_error (pm : ProfileModel)
    (url path : String) (v sk : Bool) (hg : pm.gotoThrows = false)
    (hok : sk = true ∨ pm.waitStabilizeThrows = false)
    (hs : pm.screenshotThrows = true) :
    (profileTryDen pm url path v sk).1 = Except.error "screenshot" := by
  rcases hok with rfl | hw
  · simp [profileTryDen, hg, hs]
  · cases hsk : sk <;> simp [profileTryDen, hg, hw, hs, hsk]

theorem tsDen_mem_of_mem_desktop (cm : CaptureModel) (url odir : String)
    (v sk : Bool) (hl : cm.launchThrows = false) (e : Event)
    (he : e ∈ profileDen cm.desktop url
      (String.append (String.append odir "/screenshots") "/desktop.png")
      1920 1080 "Taking desktop screenshot..."
      "Error taking desktop screenshot: " v sk) :
    e ∈ tsDen cm url odir v sk := by
  simp only [tsDen, tsProfilesDen, hl, Bool.false_eq_true, if_false]
  cases v <;> simp [List.mem_append] <;> tauto

theorem tsDen_mem_of_mem_mobile (cm : CaptureModel) (url odir : String)
    (v sk : Bool) (hl : cm.launchThrows = false) (e : Event)
    (he : e ∈ profileDen cm.mobile url
      (String.append (String.append odir "/screenshots") "/mobile.png")
      375 667 "Taking mobile screenshot..."
      "Error taking mobile screenshot: " v sk) :
    e ∈ tsDen cm url odir v sk := by
  simp only [tsDen, tsProfilesDen, hl, Bool.false_eq_true, if_false]
  cases v <;> simp [List.mem_append] <;> tauto

/-- Claim C9 (amended): consent-tier failures produce no diagnostic when
verbose is false — the resolver prints nothing at all in that case — while
every recovered per-profile failure (navigation, post-consent
stabilization wait, screenshot capture), in either profile, is reported by
an error line regardless of the verbose flag. -/
theorem nonverbose_diagnostics (m : PageModel) (cm : CaptureModel)
    (url odir : String) (v sk : Bool) (hl : cm.launchThrows = false) :
    (resolveTrace m false).all (fun e => ! e.isPrinted) = true ∧
      (cm.desktop.gotoThrows = true →
        Event.printed
            (String.append "Error taking desktop screenshot: " "goto")
          ∈ tsTrace cm url odir v sk) ∧
      (cm.desktop.gotoThrows = false → sk = false →
        cm.desktop.waitStabilizeThrows = true →
        Event.printed
            (String.append "Error taking desktop screenshot: " "wait")
          ∈ tsTrace cm url odir v sk) ∧
      (cm.desktop.gotoThrows = false →
        (sk = true ∨ cm.desktop.waitStabilizeThrows = false) →
        cm.desktop.screenshotThrows = true →
        Event.printed
            (String.append "Error taking desktop screenshot: " "screenshot")
          ∈ tsTrace cm url odir v sk) ∧
      (cm.mobile.gotoThrows = true →
        Event.printed
            (String.append "Error taking mobile screenshot: " "goto")
          ∈ tsTrace cm url odir v sk) ∧
      (cm.mobile.gotoThrows = false → sk = false →
        cm.mobile.waitStabilizeThrows = true →
        Event.printed
            (String.append "Error taking mobile screenshot: " "wait")
          ∈ tsTrace cm url odir v sk) ∧
      (cm.mobile.gotoThrows = false →
        (sk = true ∨ cm.mobile.waitStabilizeThrows = false) →
        cm.mobile.screenshotThrows = true →
        Event.printed
            (String.append "Error taking mobile screenshot: " "screenshot")
          ∈ tsTrace cm url odir v sk) := by
  refine ⟨?_, ?_, ?_, ?_, ?_, ?_, ?_⟩
  · unfold resolveTrace
    rw [handle_cookie_consent_eq]
    simp only [List.nil_append]
    rw [List.all_eq_true]
    intro e he
    have hfix := resolveDen_verbose m false
    have := (List.filter_eq_self.mp hfix) e he
    simpa using this
  · intro hd
    rw [tsTrace_eq]
    exact tsDen_mem_of_mem_desktop cm url odir v sk hl _
      (profileDen_error_print_mem _ _ _ _ _ _ _ _ _ _
        (profileTryDen_goto_error _ _ _ _ _ hd))
  · intro hg hsk hw
    subst hsk
    rw [tsTrace_eq]
    exact tsDen_mem_of_mem_desktop cm url odir v false hl _
      (profileDen_error_print_mem _ _ _ _ _ _ _ _ _ _
        (profileTryDen_wait_error _ _ _ _ hg hw))
  · intro hg hok hs
    rw [tsTrace_eq]
    exact tsDen_mem_of_mem_desktop cm url odir v sk hl _
      (profileDen_error_print_mem _ _ _ _ _ _ _ _ _ _
        (profileTryDen_screenshot_error _ _ _ _ _ hg hok hs))
  · intro hd
    rw [tsTrace_eq]
    exact tsDen_mem_of_mem_mobile cm url odir v sk hl _
      (profileDen_error_print_mem _ _ _ _ _ _ _ _ _ _
        (profileTryDen_goto_error _ _ _ _ _ hd))
  · intro hg hsk hw
    subst hsk
    rw [tsTrace_eq]
    exact tsDen_mem_of_mem_mobile cm url odir v false hl _
      (profileDen_error_print_mem _ _ _ _ _ _ _ _ _ _
        (profileTryDen_wait_error _ _ _ _ hg hw))
  · intro hg hok hs
    rw [tsTrace_eq]
    exact tsDen_mem_of_mem_mobile cm url odir v sk hl _
      (profileDen_error_print_mem _ _ _ _ _ _ _ _ _ _
        (profileTryDen_screenshot_error _ _ _ _ _ hg hok hs))

/-- Witness for the amended claim C9, with verbose on: the resolver prints
nothing when verbose is off, and both the desktop navigation failure and
the mobile screenshot failure are reported even though verbose is true. -/
theorem nonverbose_diagnostics_witness :
    (resolveTrace mAllOk false).all (fun e => ! e.isPrinted) = true ∧
      Event.printed
          (String.append "Error taking desktop screenshot: " "goto")
        ∈ tsTrace cmMixedFail "https://example.com" "./output" true false ∧
      Event.printed
          (String.append "Error taking mobile screenshot: " "screenshot")
        ∈ tsTrace cmMixedFail "https://example.com" "./output" true false := by
  obtain ⟨h1, h2, _, _, _, _, h7⟩ := nonverbose_diagnostics mAllOk cmMixedFail
    "https://example.com" "./output" true false rfl
  exact ⟨h1, h2 rfl, h7 rfl (Or.inr rfl) rfl⟩

/-- Claim C7: when the url argument does not parse as an absolute URL with
both a scheme and a host, main prints exactly one invalid-URL error line
and returns normally: its whole trace is that line, so no directory is
ever created and the browser engine is never launched. -/
theorem main_rejects_invalid_url (cm : CaptureModel)
    (url output timestamp : String) (verbose skip_cookies : Bool)
    (h : urlScheme url = [] ∨ urlNetloc url = []) :
    main_entry cm url output timestamp verbose skip_cookies [] =
      (Except.ok (), [Event.printed (String.append
        (String.append "Error: Invalid URL \x27" url) "\x27")]) ∧
      ((main_entry cm url output timestamp verbose skip_cookies []).2.countP
        (fun e => e.isMakedirs) = 0) ∧
      ((main_entry cm url output timestamp verbose skip_cookies []).2.countP
        (fun e => e.isLaunch) = 0) := by
  have hmain : main_entry cm url output timestamp verbose skip_cookies [] =
      (Except.ok (), [Event.printed (String.append
        (String.append "Error: Invalid URL \x27" url) "\x27")]) := by
    simp only [main_entry]
    rw [if_pos h]
    simp
  refine ⟨hmain, ?_, ?_⟩ <;> rw [hmain] <;>
    simp [List.countP_cons, Event.isMakedirs, Event.isLaunch]

/-- Witness for claim C7 at the concrete invalid input not-a-url. -/
theorem main_rejects_invalid_url_witness :
    main_entry cmAllOk "not-a-url" "./output" "20251012_120000" false false [] =
      (Except.ok (), [Event.printed (String.append (String.append
        "Error: Invalid URL \x27" "not-a-url") "\x27")]) := by
  exact (main_rejects_invalid_url cmAllOk "not-a-url" "./output"
    "20251012_120000" false false (by decide)).1
